import Mathlib

/-!
Shallow embedding of the MedAtlas frontend (React/TypeScript) and, where the
backend validation engine is absent from the sources, a model of it built
from the system specification.  Every definition cites the file and symbol
it embeds.
-/

namespace MedAtlas

/-! ## Confidence colouring and status badges -/

/-- Authoritative provider-status band of the specification (§4.4):
score ≥ 80 is validated, 60–79 is the review band, below 60 is high risk. -/
inductive Band
  | validated
  | review
  | highRisk
deriving DecidableEq, Repr

/-- Modelled from the spec: the authoritative threshold table of §4.4 mapping
an integer confidence score to its band. -/
def specBand (s : Int) : Band :=
  if s ≥ 80 then Band.validated
  else if s ≥ 60 then Band.review
  else Band.highRisk

/-- Embeds getConfidenceColor from components/ProviderTable.jsx
(src/unnamed/part_000, lines 17–21); the identical function also appears in
components/DiscrepancyList.jsx (src/unnamed/part_001, lines 15–19). -/
def getConfidenceColor (score : Int) : String :=
  if score ≥ 80 then "#27ae60"
  else if score ≥ 60 then "#f39c12"
  else "#e74c3c"

/-- Embeds the colour choice of ConfidenceBar in pages/Providers.tsx,
lines 40–45: green at ≥ 90, amber at ≥ 75, red below. -/
def confidenceBarColor (confidence : Int) : String :=
  if confidence ≥ 90 then "bg-green-500"
  else if confidence ≥ 75 then "bg-amber-500"
  else "bg-red-500"

/-- Embeds safeWidth of ConfidenceBar in pages/Providers.tsx, line 47:
the width is clamped to [0, 100]. -/
def safeWidth (confidence : Int) : Int :=
  max 0 (min 100 confidence)

/-- Embeds the percentage text of ConfidenceBar in pages/Providers.tsx,
line 58: safeWidth.toFixed(0), which on the integer scores of the data model
is the clamped value itself. -/
def confidenceBarPercent (confidence : Int) : Int :=
  safeWidth confidence

/-! ## Discrepancy status handling -/

/-- Embeds the Status type of pages/Discrepancies.tsx, line 8:
the TSX discrepancy page draws statuses from a three-value domain. -/
inductive TStatus
  | open
  | under_review
  | resolved
deriving DecidableEq, Repr

/-- Embeds the StatusBadge labels of pages/Discrepancies.tsx, lines 50–54. -/
def tsxStatusLabel : TStatus → String
  | TStatus.open => "Open"
  | TStatus.under_review => "Under Review"
  | TStatus.resolved => "Resolved"

/-- Embeds the nextStatus computation of handleReview in
pages/Discrepancies.tsx, lines 122–127. -/
def handleReviewNext : TStatus → TStatus
  | TStatus.open => TStatus.under_review
  | TStatus.under_review => TStatus.resolved
  | TStatus.resolved => TStatus.resolved

/-- Embeds the rendering condition of the Review button in
pages/Discrepancies.tsx, lines 330–336: the button is rendered on every
discrepancy row, whatever its status. -/
def reviewOffered (_ : TStatus) : Bool :=
  true

/-- Embeds the rendering condition of the resolve button in
components/DiscrepancyList.jsx (src/unnamed/part_001, line 84): the
Mark-as-Resolved button is rendered only when status is open. -/
def resolveOffered (status : String) : Bool :=
  status == "open"

/-- Embeds the status argument that handleResolve of
pages/DiscrepanciesPage.jsx, line 73 sends to updateDiscrepancy. -/
def handleResolveStatus : String :=
  "resolved"

/-- Embeds the status filter options of the select element in
pages/DiscrepanciesPage.jsx, lines 123–125. -/
def jsxDiscStatusOptions : List String :=
  ["all", "open", "resolved"]

/-- Embeds the two status values on which components/DiscrepancyList.jsx
branches its action area (src/unnamed/part_001, lines 84 and 92). -/
def jsxDiscStatusHandled : List String :=
  ["open", "resolved"]

/-! ## Provider status domains and badges -/

/-- Embeds getStatusBadge of components/ProviderTable.jsx
(src/unnamed/part_000, lines 5–15): badge text per status key, with the
lookup falling back to the pending badge on any unknown key. -/
def getStatusBadgeText (status : String) : String :=
  if status = "validated" then "Validated"
  else if status = "pending" then "Pending"
  else if status = "needs_review" then "Needs Review"
  else if status = "review_recommended" then "Review Recommended"
  else if status = "high_risk" then "High Risk"
  else "Pending"

/-- Embeds the keys of the badges table of getStatusBadge in
components/ProviderTable.jsx (src/unnamed/part_000, lines 6–12). -/
def statusBadgeKeys : List String :=
  ["validated", "pending", "needs_review", "review_recommended", "high_risk"]

/-- Modelled from the spec: the validation_status domain of the
ProviderRecord data model (§3). -/
def specProviderStatuses : List String :=
  ["pending", "validated", "needs_review", "review_recommended", "high_risk"]

/-- Embeds the ProviderStatus union type of pages/Providers.tsx, line 5. -/
def providerStatusTSValues : List String :=
  ["validated", "pending", "failed"]

/-- Embeds the option values of the status filter select of
pages/ProvidersPage.jsx, lines 105–110. -/
def providersPageFilterOptions : List String :=
  ["all", "pending", "validated", "needs_review", "review_recommended"]

/-! ## Dashboard summary -/

/-- Embeds the SummaryStats interface of pages/Dashboard.tsx, lines 12–20,
which mirrors the record returned by getSummary; the average confidence is
kept as the numeric value that the UI formats. -/
structure SummaryStats where
  total_providers : Int
  validated_providers : Int
  pending_providers : Int
  total_discrepancies : Int
  open_discrepancies : Int
  avg_confidence_score : Int
  high_risk_providers : Int
deriving DecidableEq, Repr

/-- Embeds the cards array of components/SummaryCards.jsx, lines 7–50:
the title and displayed numeric value of each card (the Avg Confidence card
formats its value with toFixed(1), elided here to the value itself). -/
def summaryCards (s : SummaryStats) : List (String × Int) :=
  [("Total Providers", s.total_providers),
   ("Validated", s.validated_providers),
   ("Pending", s.pending_providers),
   ("Discrepancies", s.total_discrepancies),
   ("Open Issues", s.open_discrepancies),
   ("Avg Confidence", s.avg_confidence_score),
   ("High Risk", s.high_risk_providers)]

/-! ## Provider list state and validation updates -/

/-- Embeds the Provider interface of pages/Providers.tsx, lines 7–15, with
the status kept as its runtime string (the TypeScript cast at line 89 is
unchecked). -/
structure ProviderUI where
  id : String
  name : String
  npi : String
  specialty : String
  status : String
  confidence : Int
  lastValidated : String
deriving DecidableEq, Repr

/-- Embeds the JavaScript or-operator on numbers as used at
pages/Providers.tsx, line 138: zero is falsy, so it yields the right operand
when the left one is 0. -/
def jsOrInt (a b : Int) : Int :=
  if a = 0 then b else a

/-- Embeds the provider-list update performed by handleValidate in
pages/Providers.tsx, lines 132–143: the entry whose id matches gets the new
status, the new confidence through the or-operator fallback, and today's
date; every other entry is returned as is. -/
def applyValidation (prev : List ProviderUI) (id : String) (newStatus : String)
    (newConfidence : Int) (today : String) : List ProviderUI :=
  prev.map fun p =>
    if p.id = id then
      { p with
          status := newStatus
          confidence := jsOrInt newConfidence p.confidence
          lastValidated := today }
    else p

/-! ## Provider filtering and displayed status -/

/-- Embeds the raw provider record fields that ProvidersPage.jsx and
ProviderTable.jsx consult for filtering and badge display; a missing field
is none and a present-but-blank field is some "". -/
structure PRecord where
  id : Nat
  status : Option String
  validation_status : Option String
deriving DecidableEq, Repr

/-- Embeds the JavaScript or-operator on possibly-undefined strings as used
at ProviderTable.jsx line 63 (src/unnamed/part_000): undefined and the
empty string are falsy. -/
def jsOrStr : Option String → String → String
  | some x, b => if x = "" then b else x
  | none, b => b

/-- Embeds the status key passed to getStatusBadge at ProviderTable.jsx
line 63 (src/unnamed/part_000): validation_status, else status, else
pending. -/
def displayedStatusKey (p : PRecord) : String :=
  jsOrStr p.validation_status (jsOrStr p.status "pending")

/-- Embeds the badge text rendered for a provider row by ProviderTable.jsx
line 63 (src/unnamed/part_000). -/
def displayedBadge (p : PRecord) : String :=
  getStatusBadgeText (displayedStatusKey p)

/-- Embeds getFilteredProviders of pages/ProvidersPage.jsx, lines 69–74:
all providers when the filter is all, otherwise those whose status field
strictly equals the filter value. -/
def getFilteredProviders (ps : List PRecord) (statusFilter : String) :
    List PRecord :=
  if statusFilter = "all" then ps
  else ps.filter fun p => p.status == some statusFilter

/-! ## Validation runner model

The backend validation engine (SourceCollector, DiscrepancyDetector,
ConfidenceScorer, Reconciler, ValidationRunner) is not among the source
files; only its frontend callers are.  The definitions below are therefore
built from the specification, §4.2–§4.6. -/

/-- Modelled from the spec: the per-field candidate values that
SourceCollector (§4.2) assembles and feeds, already normalized, to the
detector; none is an absent source. -/
structure FieldCandidates where
  impValue : Option String
  regValue : Option String
  enrValue : Option String
deriving DecidableEq, Repr

/-- Modelled from the spec: the per-field outcome of DiscrepancyDetector
(§4.3): whether a discrepancy exists, the field confidence, and the final
value chosen by the Reconciler's trust order (§4.5). -/
structure FieldOutcome where
  discrepant : Bool
  conf : Nat
  finalVal : Option String
deriving DecidableEq, Repr

/-- Modelled from the spec: DiscrepancyDetector.detect (§4.3), with the
final value from the highest-trust present source (registry > enrichment >
import, §4.5): zero present sources give confidence 0; one present source
gives its trust weight (registry 90, enrichment 75, import 60); agreeing
sources give 100 with no discrepancy; disagreeing sources raise a
discrepancy with confidence agreeing/present × 100. -/
def detect (c : FieldCandidates) : FieldOutcome :=
  let present : List String := [c.regValue, c.enrValue, c.impValue].filterMap id
  match present with
  | [] => ⟨false, 0, none⟩
  | [v] =>
    ⟨false,
      if c.regValue.isSome then 90 else if c.enrValue.isSome then 75 else 60,
      some v⟩
  | v :: rest =>
    if rest.all (· == v) then ⟨false, 100, some v⟩
    else
      ⟨true, ((v :: rest).countP (· == v)) * 100 / (v :: rest).length, some v⟩

/-- Modelled from the spec: the provider-level score of ConfidenceScorer
(§4.4), a mean of the per-field confidences over the registered fields (the
configurable weight table taken as uniform). -/
def providerScore (fields : List String) (src : String → FieldCandidates) :
    Nat :=
  (fields.map fun f => (detect (src f)).conf).sum / fields.length

/-- Modelled from the spec: the authoritative score-to-status mapping of
§4.4, with review_recommended when any single field risk is high. -/
def statusOfScore (score : Nat) (anyFieldHighRisk : Bool) : String :=
  if score ≥ 80 then "validated"
  else if score ≥ 60 then
    if anyFieldHighRisk then "review_recommended" else "needs_review"
  else "high_risk"

/-- Modelled from the spec: one stored open discrepancy row (§3), carrying
the three source values, the chosen final value and the field confidence. -/
structure OpenDisc where
  id : Nat
  impValue : Option String
  regValue : Option String
  enrValue : Option String
  finalValue : Option String
  confidence : Nat
deriving DecidableEq, Repr

/-- Modelled from the spec: the per-provider state maintained by
ValidationRunner and Reconciler (§4.5, §4.6): at most one open discrepancy
per field (§3 invariant), the resolved row ids, the fresh-id counter, and
the latest confidence score and status. -/
@[ext]
structure RunnerState where
  openDisc : String → Option OpenDisc
  resolvedIds : List Nat
  nextId : Nat
  confidenceScore : Nat
  validationStatus : String

/-- Modelled from the spec: the Reconciler's idempotent per-field upsert
(§4.5): on a discrepancy, update the existing open row in place (same id)
or create one only where none is open; when sources agree or the field is
unvalidatable, leave no open row. -/
def upsertField (fields : List String) (src : String → FieldCandidates)
    (st : RunnerState) (f : String) : Option OpenDisc :=
  if f ∈ fields then
    match st.openDisc f, (detect (src f)).discrepant with
    | some d, true =>
        some { d with
            impValue := (src f).impValue
            regValue := (src f).regValue
            enrValue := (src f).enrValue
            finalValue := (detect (src f)).finalVal
            confidence := (detect (src f)).conf }
    | none, true =>
        some ⟨st.nextId + fields.indexOf f, (src f).impValue,
          (src f).regValue, (src f).enrValue, (detect (src f)).finalVal,
          (detect (src f)).conf⟩
    | _, false => none
  else st.openDisc f

/-- Modelled from the spec: the id of an open row auto-closed by this run
because its sources now agree (§4.5). -/
def closedIdOf (src : String → FieldCandidates) (st : RunnerState)
    (f : String) : Option Nat :=
  match st.openDisc f, (detect (src f)).discrepant with
  | some d, false => some d.id
  | _, _ => none

/-- Modelled from the spec: whether this run creates a brand-new open row
for the field (a discrepancy with no existing open row). -/
def isNewDisc (src : String → FieldCandidates) (st : RunnerState)
    (f : String) : Bool :=
  (st.openDisc f).isNone && (detect (src f)).discrepant

/-- Modelled from the spec: validateOne with forceRevalidate (§4.5, §4.6):
recompute every field outcome from the live source candidates, upsert the
discrepancy rows idempotently, record the auto-closed rows, and set the
provider's confidence and status from this run alone. -/
def validateOne (fields : List String) (src : String → FieldCandidates)
    (st : RunnerState) : RunnerState where
  openDisc := upsertField fields src st
  resolvedIds := st.resolvedIds ++ fields.filterMap (closedIdOf src st)
  nextId := st.nextId + fields.countP (isNewDisc src st)
  confidenceScore := providerScore fields src
  validationStatus :=
    statusOfScore (providerScore fields src)
      (fields.any fun f => decide ((detect (src f)).conf < 60))

end MedAtlas

/-- C4 counterexample: the manual update entry point of Discrepancies.tsx
performed on an open discrepancy sets status under_review, not resolved,
and the update button is also offered on an already-resolved discrepancy. -/
theorem review_transition_not_only_resolve :
    MedAtlas.handleReviewNext MedAtlas.TStatus.open = MedAtlas.TStatus.under_review ∧
    MedAtlas.TStatus.under_review ≠ MedAtlas.TStatus.resolved ∧
    MedAtlas.reviewOffered MedAtlas.TStatus.resolved = true := by
  decide

/-- C4 amended: the JSX entry point (DiscrepancyList + DiscrepanciesPage)
supports only open → resolved: the resolve button is offered exactly on open
discrepancies and always sets status resolved; the TSX entry point
(Discrepancies.tsx handleReview) is offered at every status and steps
open → under_review, under_review → resolved, resolved → resolved. -/
theorem manual_resolution_transitions :
    (∀ s : String, MedAtlas.resolveOffered s = true ↔ s = "open") ∧
    MedAtlas.handleResolveStatus = "resolved" ∧
    (∀ t : MedAtlas.TStatus, MedAtlas.reviewOffered t = true) ∧
    MedAtlas.handleReviewNext MedAtlas.TStatus.open = MedAtlas.TStatus.under_review ∧
    MedAtlas.handleReviewNext MedAtlas.TStatus.under_review = MedAtlas.TStatus.resolved ∧
    MedAtlas.handleReviewNext MedAtlas.TStatus.resolved = MedAtlas.TStatus.resolved := by
  refine ⟨fun s => ?_, rfl, fun t => rfl, rfl, rfl, rfl⟩
  simp [MedAtlas.resolveOffered]

/-- C5 counterexample: Discrepancies.tsx displays the status under_review
(label "Under Review"), a discrepancy status outside the two-value domain
consisting of open and resolved. -/
theorem under_review_outside_two_value_domain :
    MedAtlas.tsxStatusLabel MedAtlas.TStatus.under_review = "Under Review" ∧
    MedAtlas.TStatus.under_review ≠ MedAtlas.TStatus.open ∧
    MedAtlas.TStatus.under_review ≠ MedAtlas.TStatus.resolved := by
  decide

/-- C5 amended: the JSX discrepancy UI handles exactly the statuses open and
resolved (its action area branches only on those two and its filter offers
only those plus all), while the Discrepancies.tsx status domain is the
three-value set open, under_review, resolved. -/
theorem discrepancy_status_domains :
    MedAtlas.jsxDiscStatusHandled = ["open", "resolved"] ∧
    MedAtlas.jsxDiscStatusOptions = ["all", "open", "resolved"] ∧
    (∀ t : MedAtlas.TStatus,
      t = MedAtlas.TStatus.open ∨ t = MedAtlas.TStatus.under_review ∨
        t = MedAtlas.TStatus.resolved) := by
  refine ⟨rfl, rfl, fun t => ?_⟩
  cases t <;> simp

/-- C1: getConfidenceColor (both copies) classifies exactly on the
authoritative 80/60 boundaries, but ConfidenceBar in Providers.tsx does not:
at score 85 the spec band is validated (green, as getConfidenceColor renders
it) while ConfidenceBar renders the amber review colour, and at score 65 the
spec band is the review band while ConfidenceBar renders the high-risk red. -/
theorem confidence_color_thresholds :
    (∀ s : Int,
      (MedAtlas.getConfidenceColor s = "#27ae60" ↔ MedAtlas.specBand s = MedAtlas.Band.validated) ∧
      (MedAtlas.getConfidenceColor s = "#f39c12" ↔ MedAtlas.specBand s = MedAtlas.Band.review) ∧
      (MedAtlas.getConfidenceColor s = "#e74c3c" ↔ MedAtlas.specBand s = MedAtlas.Band.highRisk)) ∧
    MedAtlas.specBand 85 = MedAtlas.Band.validated ∧
    MedAtlas.getConfidenceColor 85 = "#27ae60" ∧
    MedAtlas.confidenceBarColor 85 = "bg-amber-500" ∧
    MedAtlas.specBand 65 = MedAtlas.Band.review ∧
    MedAtlas.confidenceBarColor 65 = "bg-red-500" := by
  refine ⟨fun s => ?_, by decide, by decide, by decide, by decide, by decide⟩
  unfold MedAtlas.getConfidenceColor MedAtlas.specBand
  split_ifs <;> simp

/-- C8: for every integer confidence input, including values below 0 and
above 100, the ConfidenceBar width and displayed percentage both equal
min(100, max(0, c)), hence always lie within 0–100. -/
theorem confidence_bar_clamped :
    ∀ c : Int,
      MedAtlas.safeWidth c = min 100 (max 0 c) ∧
      MedAtlas.confidenceBarPercent c = min 100 (max 0 c) ∧
      0 ≤ MedAtlas.safeWidth c ∧ MedAtlas.safeWidth c ≤ 100 := by
  intro c
  unfold MedAtlas.confidenceBarPercent MedAtlas.safeWidth
  refine ⟨?_, ?_, ?_, ?_⟩ <;> omega

/-- C6 counterexample: the ProviderStatus type of Providers.tsx contains
failed, which is outside the five-value specification domain, and the
ProvidersPage status filter omits high_risk, which is inside it. -/
theorem provider_status_domain_mismatch :
    "failed" ∈ MedAtlas.providerStatusTSValues ∧
    "failed" ∉ MedAtlas.specProviderStatuses ∧
    "high_risk" ∈ MedAtlas.specProviderStatuses ∧
    "high_risk" ∉ MedAtlas.providersPageFilterOptions := by
  decide

/-- C6 amended: getStatusBadge handles exactly the five specification
statuses (pending, validated, needs_review, review_recommended, high_risk);
however the Providers.tsx ProviderStatus type is the three-value set
validated, pending, failed, and the ProvidersPage filter offers only all,
pending, validated, needs_review, review_recommended, omitting high_risk. -/
theorem provider_status_handlers :
    (∀ s : String,
      s ∈ MedAtlas.statusBadgeKeys ↔ s ∈ MedAtlas.specProviderStatuses) ∧
    MedAtlas.providerStatusTSValues = ["validated", "pending", "failed"] ∧
    MedAtlas.providersPageFilterOptions =
      ["all", "pending", "validated", "needs_review", "review_recommended"] ∧
    "high_risk" ∉ MedAtlas.providersPageFilterOptions ∧
    "failed" ∉ MedAtlas.specProviderStatuses := by
  refine ⟨fun s => ?_, rfl, rfl, by decide, by decide⟩
  simp only [MedAtlas.statusBadgeKeys, MedAtlas.specProviderStatuses,
    List.mem_cons, List.not_mem_nil, or_false]
  tauto

/-- C7: the summary record consists of exactly the seven specified fields
and each of them is displayed by the SummaryCards dashboard view: the card
values are exactly the seven record fields, and two summaries rendering the
same cards are equal (so no field is dropped from the display). -/
theorem summary_fields_displayed :
    (∀ s : MedAtlas.SummaryStats,
      (MedAtlas.summaryCards s).map Prod.snd =
        [s.total_providers, s.validated_providers, s.pending_providers,
         s.total_discrepancies, s.open_discrepancies, s.avg_confidence_score,
         s.high_risk_providers]) ∧
    (∀ s t : MedAtlas.SummaryStats,
      MedAtlas.summaryCards s = MedAtlas.summaryCards t → s = t) := by
  refine ⟨fun s => rfl, fun s t h => ?_⟩
  cases s
  cases t
  simp only [MedAtlas.summaryCards, List.cons.injEq, Prod.mk.injEq,
    true_and, and_true] at h
  simp_all

/-- C7 witness: the displayed-fields property applied to a concrete
summary. -/
theorem summary_fields_displayed_witness :
    (⟨10, 4, 3, 5, 2, 81, 1⟩ : MedAtlas.SummaryStats) =
      ⟨10, 4, 3, 5, 2, 81, 1⟩ :=
  summary_fields_displayed.2 ⟨10, 4, 3, 5, 2, 81, 1⟩ ⟨10, 4, 3, 5, 2, 81, 1⟩ rfl

/-- C3: on a validation run returning confidence_score 0, handleValidate of
Providers.tsx keeps the provider's previous confidence (here 50) instead of
the returned 0, because the update goes through the or-operator fallback
newConfidence-or-previous. -/
theorem zero_confidence_not_displayed :
    MedAtlas.applyValidation
        [⟨"1", "Dr A", "1234567890", "cardiology", "pending", 50,
          "2026-01-01"⟩]
        "1" "high_risk" 0 "2026-02-02" =
      [⟨"1", "Dr A", "1234567890", "cardiology", "high_risk", 50,
        "2026-02-02"⟩] ∧
    MedAtlas.jsOrInt 0 50 = 50 ∧ (50 : Int) ≠ 0 := by
  decide

/-- C9: a successful single-provider validation leaves every list entry
whose id differs from the validated one exactly unchanged, at its original
position. -/
theorem validation_frame (prev : List MedAtlas.ProviderUI)
    (id newStatus : String) (newConfidence : Int) (today : String) (i : Nat)
    (p : MedAtlas.ProviderUI) (hp : prev[i]? = some p) (hne : p.id ≠ id) :
    (MedAtlas.applyValidation prev id newStatus newConfidence today)[i]? =
      some p := by
  unfold MedAtlas.applyValidation
  rw [List.getElem?_map, hp]
  simp [hne]

/-- C9 witness: validating provider 1 leaves the provider with id 2
untouched at position 1. -/
theorem validation_frame_witness :
    (MedAtlas.applyValidation
        [⟨"1", "Dr A", "111", "cardiology", "pending", 50, "2026-01-01"⟩,
         ⟨"2", "Dr B", "222", "oncology", "validated", 92, "2026-01-05"⟩]
        "1" "validated" 90 "2026-02-02")[1]? =
      some ⟨"2", "Dr B", "222", "oncology", "validated", 92, "2026-01-05"⟩ :=
  validation_frame
    [⟨"1", "Dr A", "111", "cardiology", "pending", 50, "2026-01-01"⟩,
     ⟨"2", "Dr B", "222", "oncology", "validated", 92, "2026-01-05"⟩]
    "1" "validated" 90 "2026-02-02" 1
    ⟨"2", "Dr B", "222", "oncology", "validated", 92, "2026-01-05"⟩
    (by decide) (by decide)

/-- C10 counterexample: a provider whose raw status field is validated but
whose validation_status is high_risk is rendered under the validated filter
even though its displayed badge is High Risk, so the filtered set and the
set of rows whose badge shows the filter value differ. -/
theorem filter_badge_mismatch :
    MedAtlas.getFilteredProviders
        [⟨1, some "validated", some "high_risk"⟩] "validated" =
      [⟨1, some "validated", some "high_risk"⟩] ∧
    MedAtlas.displayedBadge ⟨1, some "validated", some "high_risk"⟩ =
      "High Risk" ∧
    MedAtlas.getStatusBadgeText "validated" = "Validated" ∧
    "High Risk" ≠ "Validated" := by
  decide

/-- C10 amended: for a filter value other than all, the providers page
renders exactly those providers whose raw status field equals the filter
value; the badge key is validation_status, else status, else pending, so
the rendered set coincides with the set whose badge shows the filter value
only when validation_status is absent or empty (the badge then displays the
status field itself, for non-empty filter values). -/
theorem filter_renders_status_matches (ps : List MedAtlas.PRecord)
    (s : String) (p : MedAtlas.PRecord) (hs : s ≠ "all") :
    (p ∈ MedAtlas.getFilteredProviders ps s ↔
      p ∈ ps ∧ p.status = some s) ∧
    (p.validation_status = none ∨ p.validation_status = some "" →
      p.status = some s → s ≠ "" → MedAtlas.displayedStatusKey p = s) := by
  constructor
  · unfold MedAtlas.getFilteredProviders
    rw [if_neg hs]
    simp [List.mem_filter]
  · intro hv hst hsne
    unfold MedAtlas.displayedStatusKey
    rcases hv with h | h <;>
      simp [h, MedAtlas.jsOrStr, hst, hsne]

/-- C10 witness: the filter characterization and the badge coincidence hold
on a concrete provider whose validation_status is absent. -/
theorem filter_renders_status_matches_witness :
    ((⟨1, some "pending", none⟩ : MedAtlas.PRecord) ∈
        MedAtlas.getFilteredProviders [⟨1, some "pending", none⟩] "pending" ↔
      (⟨1, some "pending", none⟩ : MedAtlas.PRecord) ∈
          [(⟨1, some "pending", none⟩ : MedAtlas.PRecord)] ∧
        (⟨1, some "pending", none⟩ : MedAtlas.PRecord).status =
          some "pending") ∧
    MedAtlas.displayedStatusKey ⟨1, some "pending", none⟩ = "pending" := by
  have h := filter_renders_status_matches [⟨1, some "pending", none⟩]
    "pending" ⟨1, some "pending", none⟩ (by decide)
  exact ⟨h.1, h.2 (Or.inl rfl) rfl (by decide)⟩

/-- Helper: upsertField leaves unregistered fields untouched. -/
theorem upsertField_not_mem (fields : List String)
    (src : String → MedAtlas.FieldCandidates) (st : MedAtlas.RunnerState)
    (f : String) (hf : f ∉ fields) :
    MedAtlas.upsertField fields src st f = st.openDisc f := by
  simp [MedAtlas.upsertField, hf]

/-- Helper: when the sources agree (or the field is unvalidatable), the
upsert leaves no open row for the field. -/
theorem upsertField_agree (fields : List String)
    (src : String → MedAtlas.FieldCandidates) (st : MedAtlas.RunnerState)
    (f : String) (hf : f ∈ fields)
    (h : (MedAtlas.detect (src f)).discrepant = false) :
    MedAtlas.upsertField fields src st f = none := by
  cases hd : st.openDisc f <;> simp [MedAtlas.upsertField, hf, h, hd]

/-- Helper: on a discrepancy, the upsert updates the existing open row in
place, keeping its id. -/
theorem upsertField_update (fields : List String)
    (src : String → MedAtlas.FieldCandidates) (st : MedAtlas.RunnerState)
    (f : String) (hf : f ∈ fields)
    (h : (MedAtlas.detect (src f)).discrepant = true) (d : MedAtlas.OpenDisc)
    (hd : st.openDisc f = some d) :
    MedAtlas.upsertField fields src st f =
      some { d with
          impValue := (src f).impValue
          regValue := (src f).regValue
          enrValue := (src f).enrValue
          finalValue := (MedAtlas.detect (src f)).finalVal
          confidence := (MedAtlas.detect (src f)).conf } := by
  simp [MedAtlas.upsertField, hf, h, hd]

/-- Helper: on a discrepancy, the upsert leaves exactly one open row whose
stored values are this run's candidate values and outcome. -/
theorem upsertField_discrepant (fields : List String)
    (src : String → MedAtlas.FieldCandidates) (st : MedAtlas.RunnerState)
    (f : String) (hf : f ∈ fields)
    (h : (MedAtlas.detect (src f)).discrepant = true) :
    ∃ i, MedAtlas.upsertField fields src st f =
      some ⟨i, (src f).impValue, (src f).regValue, (src f).enrValue,
        (MedAtlas.detect (src f)).finalVal, (MedAtlas.detect (src f)).conf⟩ := by
  cases hd : st.openDisc f with
  | none =>
    exact ⟨st.nextId + fields.indexOf f,
      by simp [MedAtlas.upsertField, hf, h, hd]⟩
  | some d =>
    exact ⟨d.id, by cases d; simp [MedAtlas.upsertField, hf, h, hd]⟩

/-- Helper: a second upsert from the state left by a full run changes no
open row. -/
theorem upsertField_idem (fields : List String)
    (src : String → MedAtlas.FieldCandidates) (st : MedAtlas.RunnerState)
    (f : String) :
    MedAtlas.upsertField fields src (MedAtlas.validateOne fields src st) f =
      MedAtlas.upsertField fields src st f := by
  by_cases hf : f ∈ fields
  · cases h : (MedAtlas.detect (src f)).discrepant with
    | false =>
      rw [upsertField_agree fields src (MedAtlas.validateOne fields src st) f hf h,
        upsertField_agree fields src st f hf h]
    | true =>
      obtain ⟨i, hi⟩ := upsertField_discrepant fields src st f hf h
      have hst1 : (MedAtlas.validateOne fields src st).openDisc f =
          some ⟨i, (src f).impValue, (src f).regValue, (src f).enrValue,
            (MedAtlas.detect (src f)).finalVal,
            (MedAtlas.detect (src f)).conf⟩ := hi
      rw [upsertField_update fields src (MedAtlas.validateOne fields src st) f
        hf h _ hst1, hi]
  · rw [upsertField_not_mem fields src (MedAtlas.validateOne fields src st) f hf]
    exact rfl

/-- Helper: after a full run, no field has an open row that the next run
with the same sources would auto-close. -/
theorem closedIdOf_after (fields : List String)
    (src : String → MedAtlas.FieldCandidates) (st : MedAtlas.RunnerState)
    (f : String) (hf : f ∈ fields) :
    MedAtlas.closedIdOf src (MedAtlas.validateOne fields src st) f = none := by
  cases h : (MedAtlas.detect (src f)).discrepant with
  | false =>
    have h0 : (MedAtlas.validateOne fields src st).openDisc f = none :=
      upsertField_agree fields src st f hf h
    simp [MedAtlas.closedIdOf, h0, h]
  | true =>
    cases hopt : (MedAtlas.validateOne fields src st).openDisc f <;>
      simp [MedAtlas.closedIdOf, hopt, h]

/-- Helper: after a full run, no field counts as a brand-new discrepancy on
the next run with the same sources. -/
theorem isNewDisc_after (fields : List String)
    (src : String → MedAtlas.FieldCandidates) (st : MedAtlas.RunnerState)
    (f : String) (hf : f ∈ fields) :
    MedAtlas.isNewDisc src (MedAtlas.validateOne fields src st) f = false := by
  cases h : (MedAtlas.detect (src f)).discrepant with
  | false => simp [MedAtlas.isNewDisc, h]
  | true =>
    obtain ⟨i, hi⟩ := upsertField_discrepant fields src st f hf h
    have h0 : (MedAtlas.validateOne fields src st).openDisc f =
        some ⟨i, (src f).impValue, (src f).regValue, (src f).enrValue,
          (MedAtlas.detect (src f)).finalVal,
          (MedAtlas.detect (src f)).conf⟩ := hi
    simp [MedAtlas.isNewDisc, h0]

/-- C2: two consecutive validateOne runs with forceRevalidate and unchanged
source data produce identical states: the same open discrepancy rows (same
ids, same per-field values), the same resolved rows, the same id counter
(so the second run inserts no duplicate row), and an identical
confidence_score and status. -/
theorem validate_one_idempotent (fields : List String)
    (src : String → MedAtlas.FieldCandidates) (st : MedAtlas.RunnerState) :
    MedAtlas.validateOne fields src (MedAtlas.validateOne fields src st) =
      MedAtlas.validateOne fields src st := by
  have hfm : List.filterMap
      (MedAtlas.closedIdOf src (MedAtlas.validateOne fields src st)) fields
      = [] := by
    rw [List.filterMap_eq_nil_iff]
    intro f hf
    exact closedIdOf_after fields src st f hf
  have hcp : List.countP
      (MedAtlas.isNewDisc src (MedAtlas.validateOne fields src st)) fields
      = 0 := by
    rw [List.countP_eq_zero]
    intro f hf
    simp [isNewDisc_after fields src st f hf]
  refine MedAtlas.RunnerState.ext ?_ ?_ ?_ rfl rfl
  · funext f
    exact upsertField_idem fields src st f
  · show (MedAtlas.validateOne fields src st).resolvedIds ++
        List.filterMap
          (MedAtlas.closedIdOf src (MedAtlas.validateOne fields src st))
          fields =
      (MedAtlas.validateOne fields src st).resolvedIds
    rw [hfm, List.append_nil]
  · show (MedAtlas.validateOne fields src st).nextId +
        List.countP
          (MedAtlas.isNewDisc src (MedAtlas.validateOne fields src st))
          fields =
      (MedAtlas.validateOne fields src st).nextId
    rw [hcp, Nat.add_zero]
